import Mathlib

/-!
Shallow embedding of the command-catalog front end (src/src/pages/Commands.tsx
and src/src/pages/Admin.tsx) and proofs about its claims.

Records mirror the TypeScript interfaces; the event handlers become pure
state-transition functions.  Remote calls are modelled by an explicit `ok`
flag (whether the awaited call succeeded) and, where a claim is about the
remote store, by an explicit list of rows standing for the remote table.
JavaScript string truthiness (`if (searchTerm)`) is rendered as a test
against the empty string.
-/

namespace Ariola

/-- The `Command` row shape (Commands.tsx lines 7-17 / Admin.tsx lines 16-26). -/
structure Command where
  id : String
  name : String
  description : String
  command : String
  category : String
  created_at : String
  updated_at : String
  created_by : String
  is_active : Bool
deriving DecidableEq, Repr

/-- The `UserProfile` row shape (Admin.tsx lines 7-14). -/
structure UserProfile where
  id : String
  email : String
  full_name : String
  is_admin : Bool
  created_at : String
  updated_at : String
deriving DecidableEq, Repr

/-- Does `pat` occur at the head of `l`?  (Backs the JavaScript
`String.prototype.includes` used by the search filter.) -/
def charsStartWith : List Char → List Char → Bool
  | [], _ => true
  | _ :: _, [] => false
  | a :: as, b :: bs => a == b && charsStartWith as bs

/-- Does `pat` occur as a contiguous run somewhere in `l`?
(JavaScript `hay.includes(pat)`.) -/
def charsContain : List Char → List Char → Bool
  | [], pat => pat.isEmpty
  | a :: l, pat => charsStartWith pat (a :: l) || charsContain l pat

/-- `hay.toLowerCase().includes(needle.toLowerCase())` from Commands.tsx
lines 64-66, with lowercasing applied character by character. -/
def containsCI (hay needle : String) : Bool :=
  charsContain (hay.toList.map Char.toLower) (needle.toList.map Char.toLower)

/-- The search predicate of `filterCommands` (Commands.tsx lines 63-67): the
query is a case-insensitive substring of the name, description or command
text. -/
def matchesSearch (searchTerm : String) (cmd : Command) : Bool :=
  containsCI cmd.name searchTerm ||
  containsCI cmd.description searchTerm ||
  containsCI cmd.command searchTerm

/-- `filterCommands` (Commands.tsx lines 59-75).  The code guards the query
pass with JavaScript truthiness (`if (searchTerm)`), i.e. it runs only for a
non-empty query, and the category pass with `selectedCategory !== 'all'`. -/
def filterCommands (commands : List Command) (searchTerm : String)
    (selectedCategory : String) : List Command :=
  let afterSearch :=
    if searchTerm = "" then commands
    else commands.filter (fun cmd => matchesSearch searchTerm cmd)
  if selectedCategory = "all" then afterSearch
  else afterSearch.filter (fun cmd => cmd.category == selectedCategory)

/-! ## Catalog view (Commands.tsx) state and handlers -/

/-- The catalog view's local state relevant to the data claims: the fetched
command list, the add-dialog open flag and the command being edited
(Commands.tsx lines 21-27). -/
structure CatalogState where
  commands : List Command
  showAddModal : Bool
  editingCommand : Option Command
deriving DecidableEq, Repr

/-- The active-only fetch of the catalog view (Commands.tsx lines 42-57):
`select * from commands where is_active = true`.  The `order by created_at
desc` is executed by the remote store and does not affect which rows are
returned, so the fetch is modelled as the filtered row set. -/
def fetchActiveCommands (db : List Command) : List Command :=
  db.filter (fun c => c.is_active)

/-- The unfiltered fetch of the administration view (Admin.tsx lines 71-74):
`select * from commands` with no active filter. -/
def fetchAllCommands (db : List Command) : List Command :=
  db

/-- The form payload of `handleAddCommand`
(`Omit<Command, 'id' | 'created_at' | 'updated_at' | 'created_by'>`). -/
structure NewCommandData where
  name : String
  description : String
  command : String
  category : String
  is_active : Bool
deriving DecidableEq, Repr

/-- The fields the remote store attaches to an inserted row. -/
structure ServerAssigned where
  id : String
  created_at : String
  updated_at : String
deriving DecidableEq, Repr

/-- The row the remote store returns for the insert issued by
`handleAddCommand` (Commands.tsx lines 91-98): the payload plus
`created_by := user.id` plus the server-assigned fields. -/
def insertedRow (payload : NewCommandData) (userId : String)
    (server : ServerAssigned) : Command :=
  { id := server.id
    name := payload.name
    description := payload.description
    command := payload.command
    category := payload.category
    created_at := server.created_at
    updated_at := server.updated_at
    created_by := userId
    is_active := payload.is_active }

/-- `handleAddCommand` (Commands.tsx lines 87-106) acting on the local state
and the remote table.  `user` is the session identity (`None` when signed
out), `ok` whether the awaited insert succeeded, `server` the fields the
store assigned.  The third component records whether a remote insert was
issued at all: the handler returns before the `try` block when `user` is
null.  On failure the error is logged and swallowed, so local state is
untouched. -/
def handleAddCommand (user : Option String) (ok : Bool)
    (server : ServerAssigned) (payload : NewCommandData)
    (st : CatalogState) (db : List Command) :
    CatalogState × List Command × Bool :=
  match user with
  | none => (st, db, false)
  | some userId =>
    if ok then
      let row := insertedRow payload userId server
      ({ st with commands := row :: st.commands, showAddModal := false },
       db ++ [row], true)
    else (st, db, true)

/-- `handleUpdateCommand` (Commands.tsx lines 108-123) acting on the local
state.  `returned` is the row the remote `update ... select().single()` call
sent back; on success the matching local entry is replaced by it and the edit
dialog closes, on failure the error is logged and swallowed. -/
def handleUpdateCommand (ok : Bool) (id : String) (returned : Command)
    (st : CatalogState) : CatalogState :=
  if ok then
    { st with
      commands := st.commands.map (fun cmd => if cmd.id == id then returned else cmd)
      editingCommand := none }
  else st

/-- The remote effect of the catalog soft-delete (Commands.tsx lines 129-132):
`update commands set is_active = false where id = ...`. -/
def softDeleteRemote (id : String) (db : List Command) : List Command :=
  db.map (fun c => if c.id == id then { c with is_active := false } else c)

/-- `handleDeleteCommand` (Commands.tsx lines 125-139) acting on (local list,
remote table).  `confirmed` is the answer to the `confirm` dialog; without it
the handler returns at once.  `ok` is whether the remote update succeeded; on
success the entry is removed from the local list. -/
def handleDeleteCommand (confirmed ok : Bool) (id : String)
    (localCommands : List Command) (db : List Command) :
    List Command × List Command :=
  if !confirmed then (localCommands, db)
  else if ok then
    (localCommands.filter (fun cmd => !(cmd.id == id)), softDeleteRemote id db)
  else (localCommands, db)

/-! ## Administration view (Admin.tsx) state and handlers -/

/-- `AdminStats` (Admin.tsx lines 28-33).  The counts are JavaScript numbers;
`Int` keeps the `+ (isActive ? -1 : 1)` adjustments exact. -/
structure AdminStats where
  totalUsers : Int
  totalCommands : Int
  activeCommands : Int
  adminUsers : Int
deriving DecidableEq, Repr

/-- The stats `fetchData` derives (Admin.tsx lines 82-92). -/
def computeStats (usersData : List UserProfile) (commandsData : List Command) :
    AdminStats :=
  { totalUsers := usersData.length
    totalCommands := commandsData.length
    activeCommands := (commandsData.filter (fun cmd => cmd.is_active)).length
    adminUsers := (usersData.filter (fun u => u.is_admin)).length }

/-- The administration view's local state: users, commands and derived stats
(Admin.tsx lines 38-45). -/
structure AdminState where
  users : List UserProfile
  commands : List Command
  stats : AdminStats
deriving DecidableEq, Repr

/-- The state a successful `fetchData` (Admin.tsx lines 60-98) establishes
from the two fetched row sets. -/
def fetchDataState (usersData : List UserProfile) (commandsData : List Command) :
    AdminState :=
  { users := usersData, commands := commandsData
    stats := computeStats usersData commandsData }

/-- The local list update of `toggleUserAdmin` (Admin.tsx lines 109-111):
the matching row's flag is set to the negation of the flag that was passed
in; `updated_at` is not touched locally. -/
def toggleUserAdminLocal (userId : String) (isAdmin : Bool)
    (users : List UserProfile) : List UserProfile :=
  users.map (fun u => if u.id == userId then { u with is_admin := !isAdmin } else u)

/-- The remote effect of `toggleUserAdmin` (Admin.tsx lines 102-105):
`update user_profiles set is_admin = !isAdmin, updated_at = now where id =
userId`. -/
def toggleUserAdminRemote (userId : String) (isAdmin : Bool) (now : String)
    (users : List UserProfile) : List UserProfile :=
  users.map (fun u =>
    if u.id == userId then { u with is_admin := !isAdmin, updated_at := now } else u)

/-- `toggleUserAdmin` (Admin.tsx lines 100-115) acting on the administration
view's state.  On success only `users` is patched — the code issues no
`setStats`, so the derived counts are left as they were; on failure the error
is logged and swallowed. -/
def toggleUserAdmin (ok : Bool) (userId : String) (isAdmin : Bool)
    (st : AdminState) : AdminState :=
  if ok then { st with users := toggleUserAdminLocal userId isAdmin st.users }
  else st

/-- `toggleCommandStatus` (Admin.tsx lines 139-159) acting on the
administration view's state: on success the matching command's flag is
flipped in the local list and `stats.activeCommands` is adjusted by
`isActive ? -1 : 1`; on failure the error is logged and swallowed. -/
def toggleCommandStatus (ok : Bool) (commandId : String) (isActive : Bool)
    (st : AdminState) : AdminState :=
  if ok then
    { st with
      commands := st.commands.map (fun cmd =>
        if cmd.id == commandId then { cmd with is_active := !isActive } else cmd)
      stats := { st.stats with
        activeCommands := st.stats.activeCommands + (if isActive then -1 else 1) } }
  else st

/-! ## Database reset (Admin.tsx lines 161-189) -/

/-- The sentinel id of the bulk delete: `.neq('id',
'00000000-0000-0000-0000-000000000000')` deletes every row whose id differs
from this string. -/
def zeroUuid : String := "00000000-0000-0000-0000-000000000000"

/-- The remote tables the reset touches. -/
structure Db where
  commands : List Command
  users : List UserProfile
deriving DecidableEq, Repr

/-- `resetDatabase` (Admin.tsx lines 161-189) as a transition on the remote
tables.  `confirm1`/`confirm2` are the two `confirm` dialogs and
`promptInput` the free-text `prompt`; the prompt is only reached when
`confirm2` holds (short-circuit of `||`).  The returned flag records whether
any remote mutation was issued.  On the success path every command row with
`id ≠ zeroUuid` is deleted and `is_admin` is cleared on every user row with
`id ≠ operatorId`. -/
def resetDatabase (operatorId : String) (confirm1 confirm2 : Bool)
    (promptInput : String) (db : Db) : Db × Bool :=
  if !confirm1 then (db, false)
  else if !confirm2 then (db, false)
  else if promptInput ≠ "RESET" then (db, false)
  else
    ({ commands := db.commands.filter (fun c => !(c.id != zeroUuid))
       users := db.users.map (fun u =>
         if u.id != operatorId then { u with is_admin := false } else u) },
     true)

/-! ## Concrete sample data (used by witnesses and counterexamples) -/

/-- A system-tagged sample command. -/
def cmdDisk : Command :=
  { id := "c1", name := "Disk usage", description := "Show disk usage",
    command := "df -h", category := "system",
    created_at := "2024-01-03T00:00:00Z", updated_at := "2024-01-03T00:00:00Z",
    created_by := "u1", is_active := true }

/-- A network-tagged sample command. -/
def cmdPing : Command :=
  { id := "c2", name := "Ping host", description := "Check connectivity",
    command := "ping example.com", category := "network",
    created_at := "2024-01-02T00:00:00Z", updated_at := "2024-01-02T00:00:00Z",
    created_by := "u1", is_active := true }

/-- A second system-tagged sample command. -/
def cmdTop : Command :=
  { id := "c3", name := "Processes", description := "List processes",
    command := "top", category := "system",
    created_at := "2024-01-01T00:00:00Z", updated_at := "2024-01-01T00:00:00Z",
    created_by := "u2", is_active := true }

/-- An inactive sample command. -/
def cmdOld : Command :=
  { id := "c4", name := "Old tool", description := "Retired helper",
    command := "uptime", category := "monitoring",
    created_at := "2023-12-01T00:00:00Z", updated_at := "2023-12-01T00:00:00Z",
    created_by := "u2", is_active := false }

/-- A second inactive sample command. -/
def cmdGone : Command :=
  { id := "c5", name := "Gone tool", description := "Removed helper",
    command := "free -m", category := "monitoring",
    created_at := "2023-11-01T00:00:00Z", updated_at := "2023-11-01T00:00:00Z",
    created_by := "u2", is_active := false }

/-- A command row carrying the sentinel id the bulk delete spares. -/
def cmdSentinel : Command :=
  { id := zeroUuid, name := "Sentinel", description := "Row with the zero id",
    command := "true", category := "system",
    created_at := "2024-01-04T00:00:00Z", updated_at := "2024-01-04T00:00:00Z",
    created_by := "u1", is_active := true }

/-- A sample non-admin user. -/
def userOne : UserProfile :=
  { id := "u1", email := "one@example.com", full_name := "User One",
    is_admin := false, created_at := "2024-01-01T00:00:00Z",
    updated_at := "2024-01-01T00:00:00Z" }

/-- A sample admin user. -/
def userTwo : UserProfile :=
  { id := "u2", email := "two@example.com", full_name := "User Two",
    is_admin := true, created_at := "2024-01-02T00:00:00Z",
    updated_at := "2024-01-02T00:00:00Z" }

/-! ## Helper lemmas -/

/-- Splitting a list's length by a Boolean predicate. -/
theorem length_filter_split (l : List Command) (p : Command → Bool) :
    (l.filter p).length + (l.filter (fun c => !(p c))).length = l.length := by
  induction l with
  | nil => rfl
  | cons a t ih =>
    cases h : p a <;> simp [List.filter_cons, h] <;> omega

/-! ## Claim C2 -/

/-- C2: filtering decomposes into its two predicate passes: for every list of
commands `L`, query `Q` and category `C`,
`filterCommands L Q C = filterCommands (filterCommands L Q "all") "" C` —
applying the query predicate with category "all" and then the category
predicate with the empty query yields the same list as applying both at
once. -/
theorem filterCommands_decompose (L : List Command) (Q C : String) :
    filterCommands L Q C = filterCommands (filterCommands L Q "all") "" C := by
  simp [filterCommands]

/-! ## Claim C3 -/

/-- C3: a command is in the filtered catalog view iff it is in the source
list, its category equals the selector (or the selector is "all"), and the
query is empty or a case-insensitive substring of its name, description or
command text; in particular the empty query yields exactly the
category-filtered set. -/
theorem filterCommands_mem_iff (L : List Command) (Q C : String) (c : Command) :
    (c ∈ filterCommands L Q C ↔
      c ∈ L ∧ (C = "all" ∨ c.category = C) ∧ (Q = "" ∨ matchesSearch Q c = true)) ∧
    filterCommands L "" C =
      (if C = "all" then L else L.filter (fun cmd => cmd.category == C)) := by
  constructor
  · unfold filterCommands
    by_cases hQ : Q = "" <;> by_cases hC : C = "all" <;>
      simp [hQ, hC, List.mem_filter]
  · unfold filterCommands
    by_cases hC : C = "all" <;> simp [hC]

/-! ## Claim C5 -/

/-- C5 counterexample: with three commands tagged system, network, system and
the query "zzz" (matching none of them), selecting category "system" yields
the empty list, not the two system-tagged commands — the query filter runs
before the category filter, so the result is not independent of the query
text. -/
theorem filterCommands_system_query_counterexample :
    filterCommands [cmdDisk, cmdPing, cmdTop] "zzz" "system" ≠ [cmdDisk, cmdTop] := by
  decide

/-- C5 (amended): for a catalog of exactly three commands whose categories
are system, network and system, selecting category "system" makes the
filtered view equal exactly the two system-tagged commands for every query
text that is empty or case-insensitively matches both system-tagged
commands. -/
theorem filterCommands_system_scenario (c1 c2 c3 : Command) (q : String)
    (h1 : c1.category = "system") (h2 : c2.category = "network")
    (h3 : c3.category = "system")
    (hq : q = "" ∨ (matchesSearch q c1 = true ∧ matchesSearch q c3 = true)) :
    filterCommands [c1, c2, c3] q "system" = [c1, c3] := by
  rcases hq with rfl | ⟨m1, m3⟩
  · simp [filterCommands, List.filter_cons, h1, h2, h3]
  · by_cases hq0 : q = ""
    · subst hq0
      simp [filterCommands, List.filter_cons, h1, h2, h3]
    · cases hm2 : matchesSearch q c2 <;>
        simp [filterCommands, List.filter_cons, hq0, m1, m3, hm2, h1, h2, h3]

/-- C5 witness: the amended scenario at a concrete catalog and the empty
query. -/
theorem filterCommands_system_scenario_witness :
    filterCommands [cmdDisk, cmdPing, cmdTop] "" "system" = [cmdDisk, cmdTop] :=
  filterCommands_system_scenario cmdDisk cmdPing cmdTop "" rfl rfl rfl (Or.inl rfl)

/-! ## Claim C1 -/

/-- C1 counterexample: the bulk delete is issued as `neq('id', zeroUuid)`, so
a command row whose id IS the sentinel zero UUID survives a fully confirmed
reset — the reset does not delete every command row. -/
theorem resetDatabase_claim_counterexample :
    (resetDatabase "u1" true true "RESET"
        { commands := [cmdSentinel], users := [] }).1.commands ≠ [] := by
  decide

/-- C1 (amended): with an operator signed in, a fully confirmed reset (both
confirmation dialogs accepted and the literal "RESET" entered) deletes every
command row whose id differs from the sentinel zero UUID used by the bulk
delete filter (only rows carrying that sentinel id can survive), clears the
admin flag on every user other than the initiating operator and leaves the
operator's row untouched; if either confirmation is declined or the prompt
input is anything other than "RESET", no remote mutation is issued and the
state is unchanged. -/
theorem resetDatabase_spec (operatorId promptInput : String)
    (confirm1 confirm2 : Bool) (db : Db) :
    (∀ c ∈ (resetDatabase operatorId true true "RESET" db).1.commands,
        c.id = zeroUuid) ∧
    (∀ u ∈ db.users, u.id ≠ operatorId →
        { u with is_admin := false } ∈
          (resetDatabase operatorId true true "RESET" db).1.users) ∧
    (∀ u ∈ db.users, u.id = operatorId →
        u ∈ (resetDatabase operatorId true true "RESET" db).1.users) ∧
    (∀ u ∈ (resetDatabase operatorId true true "RESET" db).1.users,
        u.id ≠ operatorId → u.is_admin = false) ∧
    (confirm1 = false ∨ confirm2 = false ∨ promptInput ≠ "RESET" →
        resetDatabase operatorId confirm1 confirm2 promptInput db = (db, false)) := by
  have hred : resetDatabase operatorId true true "RESET" db =
      ({ commands := db.commands.filter (fun c => !(c.id != zeroUuid))
         users := db.users.map (fun u =>
           if u.id != operatorId then { u with is_admin := false } else u) },
       true) := by
    simp [resetDatabase]
  refine ⟨?_, ?_, ?_, ?_, ?_⟩
  · intro c hc
    rw [hred] at hc
    simpa using (List.mem_filter.mp hc).2
  · intro u hu hne
    rw [hred]
    have hif : (if u.id != operatorId then { u with is_admin := false } else u) =
        { u with is_admin := false } := by
      simp [hne]
    exact hif ▸ List.mem_map_of_mem _ hu
  · intro u hu heq
    rw [hred]
    have hif : (if u.id != operatorId then { u with is_admin := false } else u) =
        u := by
      simp [heq]
    exact hif ▸ List.mem_map_of_mem _ hu
  · intro u hu hne
    rw [hred] at hu
    obtain ⟨v, hv, hfv⟩ := List.mem_map.mp hu
    by_cases hvid : v.id = operatorId
    · rw [if_neg (by simp [hvid])] at hfv
      exact absurd (hfv ▸ hvid) hne
    · rw [if_pos (by simp [hvid])] at hfv
      rw [← hfv]
  · intro h
    rcases h with h | h | h
    · subst h
      simp [resetDatabase]
    · subst h
      cases confirm1 <;> simp [resetDatabase]
    · cases confirm1 <;> cases confirm2 <;> simp [resetDatabase, h]

/-! ## Claim C4 -/

/-- C4 counterexample: `toggleUserAdmin` issues no `setStats`, so after
successfully granting admin to the only user, `stats.adminUsers` (still 0
from the fetch) no longer matches the number of users whose admin flag is
set (now 1). -/
theorem toggleUserAdmin_stats_counterexample :
    (toggleUserAdmin true "u1" false (fetchDataState [userOne] [])).stats.adminUsers ≠
      (((toggleUserAdmin true "u1" false
          (fetchDataState [userOne] [])).users.filter (fun u => u.is_admin)).length : Int) := by
  decide

/-- C4 (amended): successfully toggling a user's admin flag flips the flag on
the remote row (with a refreshed update timestamp) and flips it in the local
users list, leaving other users untouched, but does not update the derived
admin-users count: `stats.adminUsers` is left exactly as it was, stale until
the next fetch. -/
theorem toggleUserAdmin_spec (userId now : String) (isAdmin : Bool)
    (st : AdminState) :
    ((toggleUserAdmin true userId isAdmin st).stats = st.stats) ∧
    (∀ u ∈ st.users, u.id = userId →
        { u with is_admin := !isAdmin } ∈ (toggleUserAdmin true userId isAdmin st).users) ∧
    (∀ u ∈ st.users, u.id ≠ userId →
        u ∈ (toggleUserAdmin true userId isAdmin st).users) ∧
    (∀ u ∈ st.users, u.id = userId →
        { u with is_admin := !isAdmin, updated_at := now } ∈
          toggleUserAdminRemote userId isAdmin now st.users) := by
  refine ⟨rfl, ?_, ?_, ?_⟩
  · intro u hu heq
    show _ ∈ toggleUserAdminLocal userId isAdmin st.users
    unfold toggleUserAdminLocal
    have hif : (if u.id == userId then { u with is_admin := !isAdmin } else u) =
        { u with is_admin := !isAdmin } := by simp [heq]
    exact hif ▸ List.mem_map_of_mem _ hu
  · intro u hu hne
    show _ ∈ toggleUserAdminLocal userId isAdmin st.users
    unfold toggleUserAdminLocal
    have hif : (if u.id == userId then { u with is_admin := !isAdmin } else u) =
        u := by simp [hne]
    exact hif ▸ List.mem_map_of_mem _ hu
  · intro u hu heq
    unfold toggleUserAdminRemote
    have hif : (if u.id == userId then
          { u with is_admin := !isAdmin, updated_at := now } else u) =
        { u with is_admin := !isAdmin, updated_at := now } := by simp [heq]
    exact hif ▸ List.mem_map_of_mem _ hu

/-! ## Claim C7 -/

/-- C7: the admin toggle stores the pure boolean negation of the flag passed
to it, and invoking it twice sequentially — the second call reading the flag
the first one produced — returns the users list to its original value. -/
theorem toggleUserAdmin_double_flip (users : List UserProfile) (userId : String)
    (b : Bool) :
    ((∀ u ∈ users, u.id = userId → u.is_admin = b) →
        toggleUserAdminLocal userId (!b) (toggleUserAdminLocal userId b users) = users) ∧
    (∀ u ∈ users, u.id = userId →
        { u with is_admin := !b } ∈ toggleUserAdminLocal userId b users) := by
  constructor
  · intro h
    unfold toggleUserAdminLocal
    rw [List.map_map]
    have hpt : ∀ u ∈ users,
        ((fun u => if u.id == userId then { u with is_admin := !(!b) } else u) ∘
          fun u => if u.id == userId then { u with is_admin := !b } else u) u =
          id u := by
      intro u hu
      by_cases hid : u.id = userId
      · have hb := h u hu hid
        have hbeq : (u.id == userId) = true := by simp [hid]
        simp [Function.comp, hbeq, ← hb]
      · simp [Function.comp, hid]
    rw [List.map_congr_left hpt, List.map_id]
  · intro u hu heq
    unfold toggleUserAdminLocal
    have hif : (if u.id == userId then { u with is_admin := !b } else u) =
        { u with is_admin := !b } := by simp [heq]
    exact hif ▸ List.mem_map_of_mem _ hu

/-- C7 witness: the double toggle at a concrete users list (the only user
with id "u2" has flag `true`), and the single toggle stores the negation. -/
theorem toggleUserAdmin_double_flip_witness :
    toggleUserAdminLocal "u2" (!true)
        (toggleUserAdminLocal "u2" true [userOne, userTwo]) = [userOne, userTwo] ∧
    { userTwo with is_admin := !true } ∈
        toggleUserAdminLocal "u2" true [userOne, userTwo] :=
  ⟨(toggleUserAdmin_double_flip [userOne, userTwo] "u2" true).1 (by decide),
   (toggleUserAdmin_double_flip [userOne, userTwo] "u2" true).2 userTwo
     (by decide) rfl⟩

/-! ## Claim C6 -/

/-- C6: when the administration view fetches five commands of which two have
`is_active = false`, the derived stats report `activeCommands = 3` and
`totalCommands = 5`; successfully deactivating one of the active commands via
the status toggle decrements `activeCommands` to 2 and leaves
`totalCommands` at 5. -/
theorem adminStats_scenario (usersData : List UserProfile)
    (commandsData : List Command) (c : Command)
    (hc : c ∈ commandsData) (hact : c.is_active = true)
    (hlen : commandsData.length = 5)
    (hinact : (commandsData.filter (fun cmd => !cmd.is_active)).length = 2) :
    (fetchDataState usersData commandsData).stats.activeCommands = 3 ∧
    (fetchDataState usersData commandsData).stats.totalCommands = 5 ∧
    (toggleCommandStatus true c.id c.is_active
        (fetchDataState usersData commandsData)).stats.activeCommands = 2 ∧
    (toggleCommandStatus true c.id c.is_active
        (fetchDataState usersData commandsData)).stats.totalCommands = 5 := by
  have hsplit := length_filter_split commandsData (fun cmd => cmd.is_active)
  simp only at hsplit
  have hkey : (commandsData.filter (fun cmd => cmd.is_active)).length = 3 := by
    omega
  refine ⟨?_, ?_, ?_, ?_⟩
  · simp [fetchDataState, computeStats, hkey]
  · simp [fetchDataState, computeStats, hlen]
  · simp [toggleCommandStatus, fetchDataState, computeStats, hact, hkey]
  · simp [toggleCommandStatus, fetchDataState, computeStats, hlen]

/-- C6 witness: the scenario at a concrete catalog of five commands, three
active and two inactive, deactivating the active command `cmdDisk`. -/
theorem adminStats_scenario_witness :
    (fetchDataState [] [cmdDisk, cmdPing, cmdTop, cmdOld, cmdGone]).stats.activeCommands = 3 ∧
    (fetchDataState [] [cmdDisk, cmdPing, cmdTop, cmdOld, cmdGone]).stats.totalCommands = 5 ∧
    (toggleCommandStatus true cmdDisk.id cmdDisk.is_active
        (fetchDataState [] [cmdDisk, cmdPing, cmdTop, cmdOld, cmdGone])).stats.activeCommands = 2 ∧
    (toggleCommandStatus true cmdDisk.id cmdDisk.is_active
        (fetchDataState [] [cmdDisk, cmdPing, cmdTop, cmdOld, cmdGone])).stats.totalCommands = 5 :=
  adminStats_scenario [] [cmdDisk, cmdPing, cmdTop, cmdOld, cmdGone] cmdDisk
    (by decide) rfl rfl rfl

/-! ## Claim C8 -/

/-- C8: for a command present in both views, a confirmed, successful
soft-delete from the catalog removes every row with its id from the catalog
view's local list and from any subsequent active-only fetch, while the row —
now with `is_active = false` — remains included in the administration view's
unfiltered fetch. -/
theorem softDelete_views (localCommands db : List Command) (id : String)
    (c : Command) (hc : c ∈ db) (hid : c.id = id) (hact : c.is_active = true)
    (hloc : c ∈ localCommands) :
    (∀ d ∈ (handleDeleteCommand true true id localCommands db).1, d.id ≠ id) ∧
    (∀ d ∈ fetchActiveCommands (handleDeleteCommand true true id localCommands db).2,
        d.id ≠ id) ∧
    { c with is_active := false } ∈
      fetchAllCommands (handleDeleteCommand true true id localCommands db).2 := by
  have hred : handleDeleteCommand true true id localCommands db =
      (localCommands.filter (fun cmd => !(cmd.id == id)), softDeleteRemote id db) :=
    rfl
  refine ⟨?_, ?_, ?_⟩
  · intro d hd
    rw [hred] at hd
    simpa using (List.mem_filter.mp hd).2
  · intro d hd
    rw [hred] at hd
    obtain ⟨hmem, hdact⟩ := List.mem_filter.mp hd
    obtain ⟨v, hv, hfv⟩ := List.mem_map.mp hmem
    by_cases hvid : v.id = id
    · rw [if_pos (by simp [hvid])] at hfv
      rw [← hfv] at hdact
      simp at hdact
    · rw [if_neg (by simp [hvid])] at hfv
      rw [← hfv]
      exact hvid
  · rw [hred]
    show _ ∈ softDeleteRemote id db
    unfold softDeleteRemote
    have hif : (if c.id == id then { c with is_active := false } else c) =
        { c with is_active := false } := by simp [hid]
    exact hif ▸ List.mem_map_of_mem _ hc

/-- C8 witness: the soft-delete at a concrete state where `cmdDisk` is in the
catalog list and the remote table. -/
theorem softDelete_views_witness :
    (∀ d ∈ (handleDeleteCommand true true "c1" [cmdDisk, cmdOld] [cmdDisk, cmdOld]).1,
        d.id ≠ "c1") ∧
    (∀ d ∈ fetchActiveCommands
        (handleDeleteCommand true true "c1" [cmdDisk, cmdOld] [cmdDisk, cmdOld]).2,
        d.id ≠ "c1") ∧
    { cmdDisk with is_active := false } ∈
      fetchAllCommands
        (handleDeleteCommand true true "c1" [cmdDisk, cmdOld] [cmdDisk, cmdOld]).2 :=
  softDelete_views [cmdDisk, cmdOld] [cmdDisk, cmdOld] "c1" cmdDisk
    (by decide) rfl rfl (by decide)

/-! ## Claim C9 -/

/-- C9: when the remote call fails, the command update, the command status
toggle and the user admin toggle each leave the local view state exactly as
it was — the error is caught and swallowed, with no partial local
mutation. -/
theorem remote_failure_preserves_state (id commandId userId : String)
    (returned : Command) (isActive isAdmin : Bool)
    (cst : CatalogState) (ast : AdminState) :
    handleUpdateCommand false id returned cst = cst ∧
    toggleCommandStatus false commandId isActive ast = ast ∧
    toggleUserAdmin false userId isAdmin ast = ast :=
  ⟨rfl, rfl, rfl⟩

/-! ## Claim C10 -/

/-- C10: with no user signed in, the add-command handler is a no-op: it
issues no remote insert and leaves the local state (command list and
add-dialog flag) and the remote table unchanged. -/
theorem handleAddCommand_signed_out (ok : Bool) (server : ServerAssigned)
    (payload : NewCommandData) (st : CatalogState) (db : List Command) :
    handleAddCommand none ok server payload st db = (st, db, false) :=
  rfl

end Ariola
